import Mathlib

/-!
Verification of the orchestration-and-response-resolution core of
`src/script.js`: a browser client that builds a generation request,
performs a retry loop around the network call, extracts text and
grounding sources, and resolves the result for display.

JavaScript runtime values that the code manipulates (parsed JSON,
optional-chained property accesses, truthiness) are modelled by the
inductive type `Js`; `JSON.parse` is modelled by an executable parser
`parseJson` over the JSON sublanguage the code exchanges (objects,
arrays, strings, integer numerals, booleans, null).
-/

namespace AiModel

/-- A JavaScript runtime value as used by the script: `undefined`, `null`,
booleans, numbers, strings, arrays and plain objects. A number is kept
as its exact decimal value `mantissa * 10 ^ exp10` in the canonical form
produced by `makeNum` (mantissa not divisible by 10, and `0 * 10 ^ 0`
for zero); the script does no arithmetic on numbers, so the rounding of
decimal literals to IEEE doubles (and their overflow to infinity) is
not modelled. -/
inductive Js where
  | undef : Js
  | null : Js
  | bool : Bool → Js
  | num : Int → Int → Js
  | str : String → Js
  | arr : List Js → Js
  | obj : List (String × Js) → Js

/-- JavaScript truthiness: `undefined`, `null`, `false`, `0` and `""` are
falsy; every other value is truthy. -/
def truthy : Js → Bool
  | Js.undef => false
  | Js.null => false
  | Js.bool b => b
  | Js.num m _ => decide (m ≠ 0)
  | Js.str s => decide (s ≠ "")
  | Js.arr _ => true
  | Js.obj _ => true

/-- The two values on which JavaScript property access throws a
`TypeError`: `undefined` and `null`. -/
def isNullish : Js → Bool
  | Js.undef => true
  | Js.null => true
  | _ => false

/-- A thrown `Error` value: its message and, had one been attached, the
message of its `cause` option (the script never attaches one). -/
structure JsError where
  message : String
  causeMessage : Option String

/-- Property access `o[k]` (or guarded `o?.k`) as the script uses it:
on an object the value of the last binding of the key (JSON.parse keeps
the last duplicate), `undefined` otherwise. -/
def getProp (o : Js) (k : String) : Js :=
  match o with
  | Js.obj fields =>
    (fields.foldl (fun acc p => if p.1 = k then some p.2 else acc) none).getD Js.undef
  | _ => Js.undef

/-- Index access `o[i]` on a non-nullish receiver: array element or
string character (a one-character string) when in range, `undefined`
otherwise. -/
def getIdx (o : Js) (i : Nat) : Js :=
  match o with
  | Js.arr xs => xs.getD i Js.undef
  | Js.str s =>
    match s.data.get? i with
    | some c => Js.str (String.mk [c])
    | none => Js.undef
  | _ => Js.undef

/-- Unguarded property access `o.k` (script lines 100, 105, 124): a
`TypeError` on `null` and `undefined`, the property value otherwise. -/
def getPropE (o : Js) (k : String) : Except JsError Js :=
  match o with
  | Js.undef => Except.error
      ⟨"TypeError: Cannot read properties of undefined (reading " ++ k ++ ")", none⟩
  | Js.null => Except.error
      ⟨"TypeError: Cannot read properties of null (reading " ++ k ++ ")", none⟩
  | o => Except.ok (getProp o k)

/-- Optional-chained property access `o?.k`: `undefined` on a nullish
receiver, ordinary access otherwise. -/
def optProp (o : Js) (k : String) : Js :=
  match o with
  | Js.undef => Js.undef
  | Js.null => Js.undef
  | o => getProp o k

/-- Optional-chained index access `o?.[i]`. -/
def optIdx (o : Js) (i : Nat) : Js :=
  match o with
  | Js.undef => Js.undef
  | Js.null => Js.undef
  | o => getIdx o i

/-- Decimal printing of a canonical number `m * 10 ^ e`: plain decimal
notation, as JavaScript prints every number the script can meet (the
exponent notation JavaScript switches to beyond 1e21 or below 1e-6 is
not modelled). -/
def numToString (m e : Int) : String :=
  if m = 0 then "0"
  else
    let sign := if m < 0 then "-" else ""
    let ds := Nat.toDigits 10 m.natAbs
    if 0 ≤ e then sign ++ String.mk ds ++ String.mk (List.replicate e.toNat '0')
    else
      let k := (-e).toNat
      if k < ds.length then
        sign ++ String.mk (ds.take (ds.length - k)) ++ "." ++
          String.mk (ds.drop (ds.length - k))
      else
        sign ++ "0." ++ String.mk (List.replicate (k - ds.length) '0') ++ String.mk ds

mutual

/-- JavaScript string coercion `String(v)` as used by template literals:
`undefined`, `null`, booleans and numbers print their usual names,
arrays join their elements with commas (with `undefined`/`null` elements
printing empty), objects print as `[object Object]`. -/
def jsToString : Js → String
  | Js.undef => "undefined"
  | Js.null => "null"
  | Js.bool true => "true"
  | Js.bool false => "false"
  | Js.num m e => numToString m e
  | Js.str s => s
  | Js.arr xs => String.intercalate "," (jsArrayParts xs)
  | Js.obj _ => "[object Object]"

/-- Elementwise coercion for array stringification. -/
def jsArrayParts : List Js → List String
  | [] => []
  | Js.undef :: xs => "" :: jsArrayParts xs
  | Js.null :: xs => "" :: jsArrayParts xs
  | x :: xs => jsToString x :: jsArrayParts xs

end

/-! ### A model of `JSON.parse` -/

/-- Skip JSON whitespace. -/
def skipWs : List Char → List Char
  | c :: rest =>
    if c = ' ' || c = '\n' || c = '\t' || c = '\r' then skipWs rest else c :: rest
  | [] => []

/-- Model of `String.prototype.trim` over the ASCII whitespace the
inputs use: drop leading and trailing whitespace. -/
def jsTrim (s : String) : String :=
  String.mk (skipWs (skipWs s.data).reverse).reverse

/-- Value of one hexadecimal digit. -/
def hexVal (c : Char) : Option Nat :=
  if c.isDigit then some (c.toNat - 48)
  else if 'a' ≤ c ∧ c ≤ 'f' then some (c.toNat - 87)
  else if 'A' ≤ c ∧ c ≤ 'F' then some (c.toNat - 55)
  else none

/-- Value of a four-hex-digit escape body. -/
def hexVal4 (a b c d : Char) : Option Nat :=
  match hexVal a, hexVal b, hexVal c, hexVal d with
  | some x, some y, some z, some w => some (((x * 16 + y) * 16 + z) * 16 + w)
  | _, _, _, _ => none

/-- Stand-in character for an unpaired UTF-16 surrogate, which a Lean
`String` cannot hold (JavaScript strings keep the lone surrogate; this
is the one approximation in the string model, unreachable from
well-formed text). -/
def unpairedSurrogate : Char := Char.ofNat 0xFFFD

/-- Scan a JSON string literal body after the opening quote per the
JSON grammar: the `\"` `\\` `\/` `\b` `\f` `\n` `\r` `\t` and `\uXXXX`
escapes (combining surrogate pairs), rejecting unknown escapes and raw
control characters below `U+0020`; returns the decoded string and the
rest of the input. The fuel only feeds the surrogate lookahead and is
ample at one beyond the input length, every step consuming input. -/
def scanString : Nat → List Char → List Char → Option (String × List Char)
  | 0, _, _ => none
  | _ + 1, _, [] => none
  | _ + 1, acc, '"' :: rest => some (String.mk acc.reverse, rest)
  | fuel + 1, acc, '\\' :: 'u' :: a :: b :: c :: d :: rest =>
    match hexVal4 a b c d with
    | none => none
    | some code =>
      if 0xD800 ≤ code ∧ code ≤ 0xDBFF then
        match rest with
        | '\\' :: 'u' :: a2 :: b2 :: c2 :: d2 :: rest2 =>
          match hexVal4 a2 b2 c2 d2 with
          | some lo =>
            if 0xDC00 ≤ lo ∧ lo ≤ 0xDFFF then
              scanString fuel
                (Char.ofNat (0x10000 + (code - 0xD800) * 0x400 + (lo - 0xDC00)) :: acc)
                rest2
            else scanString fuel (unpairedSurrogate :: acc) rest
          | none => scanString fuel (unpairedSurrogate :: acc) rest
        | _ => scanString fuel (unpairedSurrogate :: acc) rest
      else if 0xDC00 ≤ code ∧ code ≤ 0xDFFF then
        scanString fuel (unpairedSurrogate :: acc) rest
      else scanString fuel (Char.ofNat code :: acc) rest
  | fuel + 1, acc, '\\' :: e :: rest =>
    match e with
    | '"' => scanString fuel ('"' :: acc) rest
    | '\\' => scanString fuel ('\\' :: acc) rest
    | '/' => scanString fuel ('/' :: acc) rest
    | 'b' => scanString fuel ('\x08' :: acc) rest
    | 'f' => scanString fuel ('\x0c' :: acc) rest
    | 'n' => scanString fuel ('\n' :: acc) rest
    | 'r' => scanString fuel ('\r' :: acc) rest
    | 't' => scanString fuel ('\t' :: acc) rest
    | _ => none
  | _ + 1, _, '\\' :: [] => none
  | fuel + 1, acc, c :: rest =>
    if c.toNat < 32 then none else scanString fuel (c :: acc) rest

/-- Split the longest leading run of decimal digits from the input. -/
def scanDigits : List Char → List Char × List Char
  | c :: rest =>
    if c.isDigit then
      let p := scanDigits rest
      (c :: p.1, p.2)
    else ([], c :: rest)
  | [] => ([], [])

/-- Decimal value of a digit run. -/
def digitsToNat (ds : List Char) : Nat :=
  ds.foldl (fun acc c => acc * 10 + (c.toNat - 48)) 0

/-- Strip trailing zero digits, returning the remaining digits and the
count stripped. -/
def dropTrailingZeros (ds : List Char) : List Char × Nat :=
  let r := ds.reverse
  let stripped := r.dropWhile (fun c => c = '0')
  (stripped.reverse, r.length - stripped.length)

/-- The number value of a parsed JSON numeral, in canonical
mantissa-times-power-of-ten form: the digits of the integer and
fraction parts form the mantissa, the exponent is adjusted by the
fraction length, and trailing zeros of the mantissa move into the
exponent so that equal decimal values have equal representations. -/
def makeNum (neg : Bool) (intDs fracDs : List Char) (expNeg : Bool) (expDs : List Char) :
    Js :=
  let e0 : Int :=
    (if expNeg then -(digitsToNat expDs : Int) else (digitsToNat expDs : Int)) -
      fracDs.length
  let p := dropTrailingZeros (intDs ++ fracDs)
  if p.1 = [] then Js.num 0 0
  else
    let m : Int := digitsToNat p.1
    Js.num (if neg then -m else m) (e0 + p.2)

/-- Optional fraction part `.digits` of a JSON numeral; a bare dot is a
syntax error. -/
def parseFrac : List Char → Option (List Char × List Char)
  | '.' :: rest =>
    let q := scanDigits rest
    if q.1 = [] then none else some (q.1, q.2)
  | cs => some ([], cs)

/-- Digits of an exponent part after its marker and optional sign. -/
def parseExpDigits (expNeg : Bool) (cs : List Char) :
    Option (Bool × List Char × List Char) :=
  let q := scanDigits cs
  if q.1 = [] then none else some (expNeg, q.1, q.2)

/-- Optional exponent part `e`/`E` with optional sign of a JSON
numeral; a bare marker is a syntax error. -/
def parseExp : List Char → Option (Bool × List Char × List Char)
  | 'e' :: '+' :: rest => parseExpDigits false rest
  | 'e' :: '-' :: rest => parseExpDigits true rest
  | 'e' :: rest => parseExpDigits false rest
  | 'E' :: '+' :: rest => parseExpDigits false rest
  | 'E' :: '-' :: rest => parseExpDigits true rest
  | 'E' :: rest => parseExpDigits false rest
  | cs => some (false, [], cs)

/-- A JSON numeral after its optional minus sign, per the JSON grammar:
integer part without leading zeros, optional fraction, optional
exponent. -/
def parseNumber (neg : Bool) (cs : List Char) : Option (Js × List Char) :=
  let ip := scanDigits cs
  match ip.1 with
  | [] => none
  | d :: ds =>
    if d = '0' ∧ ds ≠ [] then none
    else
      match parseFrac ip.2 with
      | none => none
      | some (fracDs, rest1) =>
        match parseExp rest1 with
        | none => none
        | some (expNeg, expDs, rest2) =>
          some (makeNum neg (d :: ds) fracDs expNeg expDs, rest2)

/-- Parser continuation frames: a full value, the element loop of an
array, or the member loop of an object. -/
inductive PFrame where
  | value : PFrame
  | arrItems : List Js → Bool → PFrame
  | objItems : List (String × Js) → Bool → PFrame

/-- Fuel-indexed recursive-descent parser for the JSON sublanguage the
script exchanges; returns the parsed value and the remaining input. -/
def parseP : Nat → PFrame → List Char → Option (Js × List Char)
  | 0, _, _ => none
  | fuel + 1, PFrame.value, cs =>
    match skipWs cs with
    | [] => none
    | '{' :: rest => parseP fuel (PFrame.objItems [] true) rest
    | '[' :: rest => parseP fuel (PFrame.arrItems [] true) rest
    | '"' :: rest => (scanString (rest.length + 1) [] rest).map (fun p => (Js.str p.1, p.2))
    | 't' :: rest =>
      if rest.take 3 = ['r', 'u', 'e'] then some (Js.bool true, rest.drop 3) else none
    | 'f' :: rest =>
      if rest.take 4 = ['a', 'l', 's', 'e'] then some (Js.bool false, rest.drop 4) else none
    | 'n' :: rest =>
      if rest.take 3 = ['u', 'l', 'l'] then some (Js.null, rest.drop 3) else none
    | '-' :: rest => parseNumber true rest
    | c :: rest => if c.isDigit then parseNumber false (c :: rest) else none
  | fuel + 1, PFrame.arrItems acc first, cs =>
    match skipWs cs with
    | ']' :: rest => if first then some (Js.arr acc.reverse, rest) else none
    | cs2 =>
      match parseP fuel PFrame.value cs2 with
      | none => none
      | some (v, rest) =>
        match skipWs rest with
        | ',' :: rest2 => parseP fuel (PFrame.arrItems (v :: acc) false) rest2
        | ']' :: rest2 => some (Js.arr (v :: acc).reverse, rest2)
        | _ => none
  | fuel + 1, PFrame.objItems acc first, cs =>
    match skipWs cs with
    | '}' :: rest => if first then some (Js.obj acc.reverse, rest) else none
    | '"' :: rest =>
      match scanString (rest.length + 1) [] rest with
      | none => none
      | some (k, rest1) =>
        match skipWs rest1 with
        | ':' :: rest2 =>
          match parseP fuel PFrame.value rest2 with
          | none => none
          | some (v, rest3) =>
            match skipWs rest3 with
            | ',' :: rest4 => parseP fuel (PFrame.objItems ((k, v) :: acc) false) rest4
            | '}' :: rest4 => some (Js.obj ((k, v) :: acc).reverse, rest4)
            | _ => none
        | _ => none
    | _ => none

/-- Model of `JSON.parse`: parse a complete document per the JSON
grammar — objects, arrays, strings with the full escape set, numbers
with fraction and exponent and no leading zeros, the three literals —
rejecting trailing garbage; `none` models the thrown `SyntaxError`. -/
def parseJson (s : String) : Option Js :=
  match parseP (2 * s.length + 4) PFrame.value s.data with
  | some (v, rest) => if skipWs rest = [] then some v else none
  | none => none

/-! ### Request payload construction (`generateResponse`, lines 68-85) -/

/-- The fixed `structuredSchema` constant of the script. -/
def structuredSchema : Js :=
  Js.obj [
    ("type", Js.str "OBJECT"),
    ("properties", Js.obj [
      ("reasoning_steps", Js.obj [("type", Js.str "ARRAY"),
        ("items", Js.obj [("type", Js.str "STRING")])]),
      ("final_summary", Js.obj [("type", Js.str "STRING")]),
      ("confidence_score", Js.obj [("type", Js.str "NUMBER"),
        ("description", Js.str "Score from 0 to 100.")])]),
    ("propertyOrdering", Js.arr [Js.str "reasoning_steps", Js.str "final_summary",
      Js.str "confidence_score"])]

/-- The `generationConfig` object attached in structured mode. -/
structure GenerationConfig where
  responseMimeType : String
  responseSchema : Js

/-- The request body built by `generateResponse`: the mandatory
`contents`/`systemInstruction` texts plus the optional `tools` array and
the optional `generationConfig`. -/
structure Payload where
  contentsText : String
  systemInstructionText : String
  tools : Option (List Js)
  generationConfig : Option GenerationConfig

/-- The web-search tool marker object `\x7b "google_search": \x7b\x7d \x7d`. -/
def googleSearchTool : Js := Js.obj [("google_search", Js.obj [])]

/-- Payload construction of `generateResponse` (lines 69-85): base body,
then `tools` when `isGrounded`, then `generationConfig` when
`isStructured`. Both additions are independent conditionals. -/
def buildPayload (userQuery systemPrompt : String) (isGrounded isStructured : Bool) :
    Payload :=
  let payload : Payload :=
    { contentsText := userQuery, systemInstructionText := systemPrompt,
      tools := none, generationConfig := none }
  let payload :=
    if isGrounded then { payload with tools := some [googleSearchTool] } else payload
  if isStructured then
    { payload with generationConfig := some ⟨"application/json", structuredSchema⟩ }
  else payload

/-! ### Generation client: one attempt body and the retry loop -/

/-- One entry of `sources`: the mapped `uri`/`title` pair of a grounding
attribution (each may be `undefined` before filtering). -/
structure Source where
  uri : Js
  title : Js

/-- The normalized result returned on success: the extracted text part
and the filtered sources. -/
structure GenerationResult where
  text : Js
  sources : List Source

/-- The observable outcome of one `fetch` call: a rejected promise
(transport failure), or a response with its `ok` flag, status and body
(`none` when the body is not JSON, making `response.json()` reject). -/
inductive FetchOutcome where
  | networkError : String → FetchOutcome
  | response : Bool → Nat → Option Js → FetchOutcome

/-- The callback of the `.map` on line 123-126: the unguarded
`attribution.web` access throws on a nullish attribution; the chained
`?.uri` and `?.title` accesses are guarded. -/
def mapAttribution (attribution : Js) : Except JsError Source :=
  match getPropE attribution "web" with
  | Except.error e => Except.error e
  | Except.ok web => Except.ok ⟨optProp web "uri", optProp web "title"⟩

/-- `Array.prototype.map` of the attribution callback, left to right,
aborting at the first thrown `TypeError`. -/
def mapAttributions : List Js → Except JsError (List Source)
  | [] => Except.ok []
  | attribution :: rest =>
    match mapAttribution attribution with
    | Except.error e => Except.error e
    | Except.ok source =>
      match mapAttributions rest with
      | Except.error e => Except.error e
      | Except.ok sources => Except.ok (source :: sources)

/-- The body of one iteration of the `try` block (lines 92-130): status
check, candidate extraction, text extraction and source filtering;
every failure — including the `TypeError` of an unguarded property
access on a `null` body or attribution — is a thrown error, caught by
the retry loop. Plain accesses whose receiver was already checked
truthy (and hence non-nullish) use the total `getProp`. -/
def processAttempt : FetchOutcome → Except JsError GenerationResult
  | FetchOutcome.networkError m => Except.error ⟨m, none⟩
  | FetchOutcome.response ok status body =>
    if ok = false then
      let errorData := body.getD (Js.obj [])
      match getPropE errorData "error" with
      | Except.error e => Except.error e
      | Except.ok errField =>
        let msgJs := optProp errField "message"
        let errorMessage :=
          if truthy msgJs then jsToString msgJs
          else "HTTP error! status: " ++ toString status
        Except.error ⟨"API Error (" ++ toString status ++ "): " ++ errorMessage, none⟩
    else
      match body with
      | none => Except.error ⟨"Unexpected end of JSON input", none⟩
      | some result =>
        match getPropE result "candidates" with
        | Except.error e => Except.error e
        | Except.ok cands =>
          let candidate := optIdx cands 0
          if truthy candidate = false then
            Except.error ⟨"No candidates returned by the model.", none⟩
          else
            let textPart := optIdx (optProp (getProp candidate "content") "parts") 0
            if truthy textPart = false || truthy (getProp textPart "text") = false then
              Except.error ⟨"Generated text content is missing.", none⟩
            else
              let text := getProp textPart "text"
              let groundingMetadata := getProp candidate "groundingMetadata"
              if truthy groundingMetadata &&
                  truthy (getProp groundingMetadata "groundingAttributions") then
                match getProp groundingMetadata "groundingAttributions" with
                | Js.arr attributions =>
                  match mapAttributions attributions with
                  | Except.error e => Except.error e
                  | Except.ok mapped =>
                    Except.ok ⟨text, mapped.filter
                      (fun source => truthy source.uri && truthy source.title)⟩
                | _ =>
                  Except.error ⟨"groundingAttributions.map is not a function", none⟩
              else
                Except.ok ⟨text, []⟩

/-- The observable run of one `generateResponse` call: success with the
result, a thrown terminal error (recording separately the last error
that `console.error` logged), or the unreachable fall-off-the-loop
return of `undefined`. `delays` are the backoff waits performed, in
milliseconds and in order; `attempts` counts fetch attempts made. -/
inductive RunResult where
  | success : GenerationResult → List Nat → Nat → RunResult
  | failure : JsError → JsError → List Nat → Nat → RunResult
  | loopExit : List Nat → Nat → RunResult

/-- `const maxRetries = 5`. -/
def maxRetries : Nat := 5

/-- The terminal error thrown when retries are exhausted (line 136). -/
def maxRetriesError : JsError :=
  ⟨"Max retries reached. Failed to generate content.", none⟩

/-- The `while (retryCount < maxRetries)` loop (lines 90-142), with the
loop condition expressed by the fuel `maxRetries - retryCount`: run the
attempt; on error increment `retryCount`, throw the terminal error once
`retryCount >= maxRetries`, otherwise wait `2 ^ retryCount * 1000`
milliseconds and loop. -/
def retryLoop (attempt : Nat → Except JsError GenerationResult) :
    Nat → Nat → List Nat → Nat → RunResult
  | 0, _, delays, attempts => RunResult.loopExit delays attempts
  | fuel + 1, retryCount, delays, attempts =>
    match attempt retryCount with
    | Except.ok r => RunResult.success r delays (attempts + 1)
    | Except.error e =>
      if retryCount + 1 ≥ maxRetries then
        RunResult.failure maxRetriesError e delays (attempts + 1)
      else
        retryLoop attempt fuel (retryCount + 1)
          (delays ++ [2 ^ (retryCount + 1) * 1000]) (attempts + 1)

/-- `generateResponse` (lines 68-143): build the payload, then run the
retry loop from `retryCount = 0` against the network environment
`fetchAt`, which yields the outcome of the fetch of a given payload at a
given attempt index. -/
def generateResponse (userQuery systemPrompt : String) (isGrounded isStructured : Bool)
    (fetchAt : Payload → Nat → FetchOutcome) : RunResult :=
  let payload := buildPayload userQuery systemPrompt isGrounded isStructured
  retryLoop (fun retryCount => processAttempt (fetchAt payload retryCount))
    maxRetries 0 [] 0

/-- The error a run throws to its caller, when it throws one. -/
def RunResult.thrown : RunResult → Option JsError
  | RunResult.failure t _ _ _ => some t
  | _ => none

/-! ### Response resolver (`displayResult`, lines 145-186) -/

/-- The mutable state pair: `currentResponse` (line 19) and
`currentSystemPrompt` (line 20). -/
structure AppState where
  currentResponse : Js
  currentSystemPrompt : String

/-- The state at page load: both variables are the empty string. -/
def initialState : AppState := ⟨Js.str "", ""⟩

/-- What `displayResult` renders into the response container: the
structured summary block showing `String(jsonObject["final_summary"])`,
the parse-failure banner with the raw text as fallback, or the
plain-text path (whose markdown beautification is presentation glue
outside the modelled core). -/
inductive Rendered where
  | structuredSummary : String → Rendered
  | parseErrorFallback : String → Rendered
  | plainText : Js → Rendered

/-- The presentation value produced by one `displayResult` call. -/
structure ResolvedOutput where
  rendered : Rendered
  citations : List (String × Js)

/-- The citation links (lines 175-185): one `"i. title"` entry per
source, 1-indexed, targeting the `uri`; none when `sources` is empty. -/
def renderCitations (sources : List Source) : List (String × Js) :=
  if sources.length > 0 then
    sources.enum.map (fun p => (toString (p.1 + 1) ++ ". " ++ jsToString p.2.title, p.2.uri))
  else []

/-- `displayResult` (lines 145-186): store `text` as the current
response; in structured mode parse it as JSON — the unguarded
`jsonObject["final_summary"]` access on line 159 throws a `TypeError`
when the document is `null`, landing in the same local `catch` as a
parse failure — on success show the summary and overwrite the current
response with it, on any caught error show the error banner with the
raw text; otherwise show the plain text. Returns the new state and the
resolved output. -/
def displayResult (text : Js) (sources : List Source) (isStructured : Bool)
    (st : AppState) : AppState × ResolvedOutput :=
  let st1 : AppState := { st with currentResponse := text }
  let step : AppState × Rendered :=
    if isStructured then
      match parseJson (jsToString text) with
      | some jsonObject =>
        match getPropE jsonObject "final_summary" with
        | Except.ok summary =>
          ({ st1 with currentResponse := summary },
            Rendered.structuredSummary (jsToString summary))
        | Except.error _ => (st1, Rendered.parseErrorFallback (jsToString text))
      | none => (st1, Rendered.parseErrorFallback (jsToString text))
    else (st1, Rendered.plainText text)
  (step.1, { rendered := step.2, citations := renderCitations sources })

/-! ### Event handlers (lines 189-245) -/

/-- Outcome of one form submission. -/
inductive FormOutcome where
  | emptyQueryError : FormOutcome
  | resolved : ResolvedOutput → FormOutcome
  | generationFailed : String → FormOutcome

/-- `handleFormSubmit` (lines 189-215): trim the inputs, reject an empty
query, store the system prompt, run the generation and either resolve
the result through `displayResult` or render the failure message. -/
def handleFormSubmit (userQueryRaw systemPromptRaw : String)
    (isGrounded isStructured : Bool) (fetchAt : Payload → Nat → FetchOutcome)
    (st : AppState) : AppState × FormOutcome :=
  let userQuery := jsTrim userQueryRaw
  let systemPrompt := jsTrim systemPromptRaw
  if userQuery = "" then (st, FormOutcome.emptyQueryError)
  else
    let st1 : AppState := { st with currentSystemPrompt := systemPrompt }
    match generateResponse userQuery systemPrompt isGrounded isStructured fetchAt with
    | RunResult.success r _ _ =>
      let step := displayResult r.text r.sources isStructured st1
      (step.1, FormOutcome.resolved step.2)
    | RunResult.failure t _ _ _ =>
      (st1, FormOutcome.generationFailed
        ("Generation failed: " ++ t.message ++ ". Check the console for details."))
    | RunResult.loopExit _ _ =>
      (st1, FormOutcome.generationFailed "undefined")

/-- Outcome of one summarize invocation: the guard alert (no network
call), the rendered summary, or the failure banner. -/
inductive SummaryOutcome where
  | nothingAlert : SummaryOutcome
  | summaryShown : Js → SummaryOutcome
  | summaryFailed : String → SummaryOutcome

/-- The fixed system prompt of the summarize action (line 232). -/
def summarizeSystemPrompt : String :=
  "You are a helpful assistant that creates concise, clear summaries."

/-- `handleSummarize` (lines 218-245): alert and return when the current
response is falsy; otherwise wrap it in the fixed instruction template
and run a non-grounded, non-structured generation, showing the summary
text or the failure message. Returns the final state, the outcome, and
whether a generation call was issued. -/
def handleSummarize (st : AppState) (fetchAt : Payload → Nat → FetchOutcome) :
    AppState × SummaryOutcome × Bool :=
  if truthy st.currentResponse = false then (st, SummaryOutcome.nothingAlert, false)
  else
    let summaryPrompt :=
      "Please provide a concise summary (2-3 sentences) of the following text:\n\n" ++
        jsToString st.currentResponse
    match generateResponse summaryPrompt summarizeSystemPrompt false false fetchAt with
    | RunResult.success r _ _ => (st, SummaryOutcome.summaryShown r.text, true)
    | RunResult.failure t _ _ _ =>
      (st, SummaryOutcome.summaryFailed ("Failed to generate summary: " ++ t.message), true)
    | RunResult.loopExit _ _ =>
      (st, SummaryOutcome.summaryFailed "undefined", true)

/-! ### Concrete fixtures used by counterexamples and witnesses -/

/-- The structured provider text of Scenario B of the spec. -/
def scenarioBText : String :=
  "\x7b\"reasoning_steps\":[\"a\",\"b\"],\"final_summary\":\"Answer: 4\",\"confidence_score\":95\x7d"

/-- The document Scenario B parses to. -/
def scenarioBJson : Js :=
  Js.obj [("reasoning_steps", Js.arr [Js.str "a", Js.str "b"]),
    ("final_summary", Js.str "Answer: 4"), ("confidence_score", Js.num 95 0)]

/-- A grounding attribution whose `uri` and `title` are both present,
with `uri` the empty string. -/
def emptyUriAttribution : Js :=
  Js.obj [("web", Js.obj [("uri", Js.str ""), ("title", Js.str "Empty URI")])]

/-- A provider response with one candidate carrying the given text part
and the given `groundingMetadata` value. -/
def mkCandidateResponse (text groundingMetadata : Js) : Js :=
  Js.obj [("candidates", Js.arr [Js.obj [
    ("content", Js.obj [("parts", Js.arr [Js.obj [("text", text)]])]),
    ("groundingMetadata", groundingMetadata)]])]

/-- The `uri`/`title` pair a non-nullish attribution is mapped to
(lines 123-126). -/
def attributionPair (attribution : Js) : Source :=
  ⟨optProp (getProp attribution "web") "uri",
    optProp (getProp attribution "web") "title"⟩

/-! ### Helper lemmas -/

/-- Objects are truthy. -/
theorem truthy_obj (fields : List (String × Js)) : truthy (Js.obj fields) = true := rfl

/-- Arrays are truthy. -/
theorem truthy_arr (xs : List Js) : truthy (Js.arr xs) = true := rfl

/-- `undefined` is falsy. -/
theorem truthy_undef : truthy Js.undef = false := rfl

/-- A string is truthy when non-empty. -/
theorem truthy_str (s : String) : truthy (Js.str s) = decide (s ≠ "") := rfl

/-- On a non-nullish receiver the unguarded access returns the
property value. -/
theorem getPropE_not_nullish (o : Js) (k : String) (h : isNullish o = false) :
    getPropE o k = Except.ok (getProp o k) := by
  cases o with
  | undef => simp [isNullish] at h
  | null => simp [isNullish] at h
  | bool b => rfl
  | num m e => rfl
  | str t => rfl
  | arr xs => rfl
  | obj fields => rfl

/-- When every attribution is non-nullish, the map does not throw and
produces the attribution pairs in order. -/
theorem mapAttributions_ok (attrs : List Js)
    (h : ∀ a ∈ attrs, isNullish a = false) :
    mapAttributions attrs = Except.ok (attrs.map attributionPair) := by
  induction attrs with
  | nil => rfl
  | cons a rest ih =>
    have ha : isNullish a = false := h a (List.mem_cons_self a rest)
    have hr := ih (fun x hx => h x (List.mem_cons_of_mem a hx))
    simp [mapAttributions, mapAttribution, getPropE_not_nullish a "web" ha, hr,
      attributionPair]

/-- The resolver never changes the current system prompt. -/
theorem displayResult_fst_currentSystemPrompt (text : Js) (srcs : List Source)
    (isStructured : Bool) (st : AppState) :
    ((displayResult text srcs isStructured st).1).currentSystemPrompt =
      st.currentSystemPrompt := by
  cases isStructured with
  | false => rfl
  | true =>
    cases hp : parseJson (jsToString text) with
    | none => simp [displayResult, hp]
    | some j =>
      cases hg : getPropE j "final_summary" with
      | error e => simp [displayResult, hp, hg]
      | ok v => simp [displayResult, hp, hg]

/-! ### Claim C1 -/

/-- Claim C1, as stated, is false: when both `isGrounded` and
`isStructured` are true, the payload built by `generateResponse` does
contain the web-search tool (as well as the structured-output
directive); nothing strips the tool in structured mode. Shown here at
the concrete request `("q", "s", grounded, structured)`. -/
theorem c1_counterexample :
    (buildPayload "q" "s" true true).generationConfig =
      some ⟨"application/json", structuredSchema⟩ ∧
    (buildPayload "q" "s" true true).tools = some [googleSearchTool] ∧
    (buildPayload "q" "s" true true).tools ≠ none :=
  ⟨rfl, rfl, fun h => Option.noConfusion h⟩

/-- Claim C1 (amended): for every request with both flags set, the
payload contains the structured-output directive (`generationConfig`
with MIME type `application/json` and the fixed schema) and ALSO the
web-search tool; the two attachments are independent, and exclusivity
is enforced only by the checkbox UI outside this core. -/
theorem c1_both_directives_attached (userQuery systemPrompt : String) :
    (buildPayload userQuery systemPrompt true true).generationConfig =
      some ⟨"application/json", structuredSchema⟩ ∧
    (buildPayload userQuery systemPrompt true true).tools = some [googleSearchTool] :=
  ⟨rfl, rfl⟩

/-! ### Claim C2 -/

/-- Claim C2: if every attempt of a `generateResponse` call fails, the
call makes exactly 5 fetch attempts, waits 2000, 4000, 8000 and 16000
milliseconds before attempts 2 to 5, and then throws the terminal
max-retries error instead of attempting a sixth call. -/
theorem c2_retries_exhausted (userQuery systemPrompt : String)
    (isGrounded isStructured : Bool) (fetchAt : Payload → Nat → FetchOutcome)
    (h : ∀ n, ∃ er, processAttempt
      (fetchAt (buildPayload userQuery systemPrompt isGrounded isStructured) n) =
        Except.error er) :
    ∃ er, generateResponse userQuery systemPrompt isGrounded isStructured fetchAt =
      RunResult.failure maxRetriesError er [2000, 4000, 8000, 16000] 5 := by
  obtain ⟨e0, h0⟩ := h 0
  obtain ⟨e1, h1⟩ := h 1
  obtain ⟨e2, h2⟩ := h 2
  obtain ⟨e3, h3⟩ := h 3
  obtain ⟨e4, h4⟩ := h 4
  exact ⟨e4, by simp [generateResponse, retryLoop, maxRetries, h0, h1, h2, h3, h4]⟩

/-- Claim C2 witness: a network that always rejects makes the client
fail after exactly 5 attempts with the recorded backoff delays. -/
theorem c2_retries_exhausted_witness :
    ∃ er, generateResponse "q" "s" false false
        (fun _ _ => FetchOutcome.networkError "boom") =
      RunResult.failure maxRetriesError er [2000, 4000, 8000, 16000] 5 :=
  c2_retries_exhausted "q" "s" false false (fun _ _ => FetchOutcome.networkError "boom")
    (fun _ => ⟨⟨"boom", none⟩, rfl⟩)

/-! ### Claim C3 -/

/-- Claim C3, as stated, is false: the terminal error thrown after the
fifth failure does not wrap the last underlying cause. Two runs whose
attempts fail with different transport errors throw the identical
terminal error, whose cause slot is empty and whose message is the
fixed string. -/
theorem c3_counterexample :
    (generateResponse "q" "s" false false
        (fun _ _ => FetchOutcome.networkError "ECONNREFUSED at provider")).thrown =
      some ⟨"Max retries reached. Failed to generate content.", none⟩ ∧
    (generateResponse "q" "s" false false
        (fun _ _ => FetchOutcome.networkError "DNS lookup failed")).thrown =
      some ⟨"Max retries reached. Failed to generate content.", none⟩ :=
  ⟨rfl, rfl⟩

/-- Claim C3 (amended): when the fifth attempt also fails, the error
raised to the caller is a fresh `Error` with the fixed message
`Max retries reached. Failed to generate content.` and no attached
cause; the last underlying failure is only logged to the console, not
carried by the thrown error. -/
theorem c3_terminal_error_fixed (userQuery systemPrompt : String)
    (isGrounded isStructured : Bool) (fetchAt : Payload → Nat → FetchOutcome)
    (h : ∀ n, ∃ er, processAttempt
      (fetchAt (buildPayload userQuery systemPrompt isGrounded isStructured) n) =
        Except.error er) :
    (generateResponse userQuery systemPrompt isGrounded isStructured fetchAt).thrown =
      some ⟨"Max retries reached. Failed to generate content.", none⟩ := by
  obtain ⟨e0, h0⟩ := h 0
  obtain ⟨e1, h1⟩ := h 1
  obtain ⟨e2, h2⟩ := h 2
  obtain ⟨e3, h3⟩ := h 3
  obtain ⟨e4, h4⟩ := h 4
  simp [generateResponse, retryLoop, maxRetries, RunResult.thrown, maxRetriesError,
    h0, h1, h2, h3, h4]

/-- Claim C3 (amended) witness: concrete always-failing network. -/
theorem c3_terminal_error_fixed_witness :
    (generateResponse "q" "s" false false
        (fun _ _ => FetchOutcome.networkError "socket hang up")).thrown =
      some ⟨"Max retries reached. Failed to generate content.", none⟩ :=
  c3_terminal_error_fixed "q" "s" false false
    (fun _ _ => FetchOutcome.networkError "socket hang up")
    (fun _ => ⟨⟨"socket hang up", none⟩, rfl⟩)

/-! ### Claim C4 -/

/-- Claim C4, as stated, is false in its state clause: on a structured
result whose text does not parse (Scenario C, text `oops`), the
resolver does display the raw text as fallback, but the current
response state is NOT left unset — line 152 stores the raw text before
the parse attempt, so the state ends up neither unchanged nor empty. -/
theorem c4_counterexample :
    (displayResult (Js.str "oops") [] true ⟨Js.str "prior response", "sys"⟩).2.rendered =
      Rendered.parseErrorFallback "oops" ∧
    (displayResult (Js.str "oops") [] true ⟨Js.str "prior response", "sys"⟩).1.currentResponse =
      Js.str "oops" ∧
    Js.str "oops" ≠ Js.str "prior response" ∧
    Js.str "oops" ≠ Js.str "" :=
  ⟨rfl, rfl, by simp, by simp⟩

/-- Claim C4 (amended): on a structured result whose text fails to
parse as JSON, the parse error is handled inside the resolver, which
renders the error banner with the raw unparsed text as fallback; the
current response state is set to the raw text (it is not left unset). -/
theorem c4_parse_failure_fallback (text : String) (sources : List Source) (st : AppState)
    (h : parseJson text = none) :
    displayResult (Js.str text) sources true st =
      ({ st with currentResponse := Js.str text },
        { rendered := Rendered.parseErrorFallback text,
          citations := renderCitations sources }) := by
  simp [displayResult, jsToString, h]

/-- Claim C4 (amended) witness: Scenario C, provider text `oops`. -/
theorem c4_parse_failure_fallback_witness :
    displayResult (Js.str "oops") [] true initialState =
      (⟨Js.str "oops", ""⟩, ⟨Rendered.parseErrorFallback "oops", []⟩) :=
  c4_parse_failure_fallback "oops" [] initialState rfl

/-! ### Claim C5 -/

/-- Claim C5, as stated, is false at the text `null`: it parses
successfully as JSON, yet the unguarded `final_summary` access on the
`null` document throws a `TypeError` into the local catch, so the
resolver renders the raw-text fallback and the state keeps the raw
text — neither is set to any `final_summary` value. -/
theorem c5_counterexample :
    parseJson "null" = some Js.null ∧
    (displayResult (Js.str "null") [] true ⟨Js.str "x", "y"⟩).2.rendered =
      Rendered.parseErrorFallback "null" ∧
    (displayResult (Js.str "null") [] true ⟨Js.str "x", "y"⟩).1.currentResponse =
      Js.str "null" :=
  ⟨rfl, rfl, rfl⟩

/-- Claim C5 (amended): on a structured result whose text parses
successfully to a non-null document, the displayed text and the
current response state are both set to the `final_summary` value of
the parsed document, not the full document. -/
theorem c5_structured_success (s : String) (sources : List Source) (st : AppState)
    (j : Js) (hp : parseJson s = some j) (hj : isNullish j = false) :
    (displayResult (Js.str s) sources true st).1.currentResponse =
      getProp j "final_summary" ∧
    (displayResult (Js.str s) sources true st).2.rendered =
      Rendered.structuredSummary (jsToString (getProp j "final_summary")) := by
  simp [displayResult, jsToString, hp, getPropE_not_nullish j "final_summary" hj]

/-- Claim C5 witness: Scenario B, where the provider returns the sample
structured document; the resolved text and the state are both the
string `Answer: 4`. -/
theorem c5_structured_success_witness :
    (displayResult (Js.str scenarioBText) [] true initialState).1.currentResponse =
      Js.str "Answer: 4" ∧
    (displayResult (Js.str scenarioBText) [] true initialState).2.rendered =
      Rendered.structuredSummary "Answer: 4" :=
  c5_structured_success scenarioBText [] initialState scenarioBJson rfl rfl

/-! ### Claim C6 -/

/-- Claim C6, as stated, is false at its order-and-presence clause: an
attribution whose `uri` and `title` are both present, with `uri` the
empty string, is excluded from `sources` (the filter keeps only truthy
fields), while the claim says every attribution not missing a field is
kept. -/
theorem c6_counterexample :
    processAttempt (FetchOutcome.response true 200 (some (mkCandidateResponse
        (Js.str "hi") (Js.obj [("groundingAttributions",
          Js.arr [emptyUriAttribution])])))) =
      Except.ok ⟨Js.str "hi", []⟩ ∧
    getProp (getProp emptyUriAttribution "web") "uri" = Js.str "" ∧
    getProp (getProp emptyUriAttribution "web") "title" = Js.str "Empty URI" :=
  ⟨rfl, rfl, rfl⟩

/-- Claim C6 (amended): on a successful response whose grounding
attributions are all non-nullish, `sources` maps each attribution to
its `uri`/`title` pair and keeps, in original order, exactly the pairs
whose `uri` and `title` are both truthy (present and non-empty); when
the response carries no `groundingMetadata`, `sources` is empty; and a
`null` attribution instead makes the whole attempt throw the
`TypeError` of its unguarded `web` access (a retried failure, not a
filtered success). -/
theorem c6_sources_filter (text : Js) (ht : truthy text = true) (attrs : List Js)
    (hattrs : ∀ a ∈ attrs, isNullish a = false) :
    processAttempt (FetchOutcome.response true 200 (some (mkCandidateResponse text
        (Js.obj [("groundingAttributions", Js.arr attrs)])))) =
      Except.ok ⟨text, (attrs.map attributionPair).filter
        (fun source => truthy source.uri && truthy source.title)⟩ ∧
    ((attrs.map attributionPair).filter
        (fun source => truthy source.uri && truthy source.title)).Sublist
      (attrs.map attributionPair) ∧
    processAttempt (FetchOutcome.response true 200 (some (mkCandidateResponse text
        Js.undef))) = Except.ok ⟨text, []⟩ ∧
    processAttempt (FetchOutcome.response true 200 (some (mkCandidateResponse text
        (Js.obj [("groundingAttributions", Js.arr (Js.null :: attrs))])))) =
      Except.error
        ⟨"TypeError: Cannot read properties of null (reading web)", none⟩ := by
  refine ⟨?_, List.filter_sublist _, ?_, ?_⟩
  · simp [processAttempt, mkCandidateResponse, getProp, getIdx, optProp, optIdx,
      getPropE, truthy_obj, truthy_arr, truthy_undef, ht,
      mapAttributions_ok attrs hattrs]
  · simp [processAttempt, mkCandidateResponse, getProp, getIdx, optProp, optIdx,
      getPropE, truthy_obj, truthy_arr, truthy_undef, ht]
  · simp [processAttempt, mkCandidateResponse, getProp, getIdx, optProp, optIdx,
      getPropE, truthy_obj, truthy_arr, truthy_undef, ht, mapAttributions,
      mapAttribution]

/-- Claim C6 (amended) witness: Scenario D, one attribution with both
fields, one with only a `uri`; exactly the complete one survives, and a
metadata-free response yields no sources. -/
theorem c6_sources_filter_witness :
    processAttempt (FetchOutcome.response true 200 (some (mkCandidateResponse
        (Js.str "hi") (Js.obj [("groundingAttributions", Js.arr [
          Js.obj [("web", Js.obj [("uri", Js.str "https://a.example"),
            ("title", Js.str "A")])],
          Js.obj [("web", Js.obj [("uri", Js.str "https://b.example")])]])])))) =
      Except.ok ⟨Js.str "hi",
        [⟨Js.str "https://a.example", Js.str "A"⟩]⟩ ∧
    processAttempt (FetchOutcome.response true 200 (some (mkCandidateResponse
        (Js.str "hi") Js.undef))) = Except.ok ⟨Js.str "hi", []⟩ := by
  have h := c6_sources_filter (Js.str "hi") rfl
    [Js.obj [("web", Js.obj [("uri", Js.str "https://a.example"),
      ("title", Js.str "A")])],
     Js.obj [("web", Js.obj [("uri", Js.str "https://b.example")])]]
    (by decide)
  exact ⟨h.1, h.2.2.1⟩

/-! ### Claim C7 -/

/-- Claim C7, as stated, is false: the state pair is not mutated only
by the resolver on successful resolution. In a run whose generation
fails (so the resolver never runs), the form-submit handler itself has
already overwritten `currentSystemPrompt`, while `currentResponse` is
untouched. -/
theorem c7_counterexample :
    (handleFormSubmit "q" "newPrompt" false false
        (fun _ _ => FetchOutcome.networkError "down")
        ⟨Js.str "old", "oldPrompt"⟩).1.currentSystemPrompt = "newPrompt" ∧
    (handleFormSubmit "q" "newPrompt" false false
        (fun _ _ => FetchOutcome.networkError "down")
        ⟨Js.str "old", "oldPrompt"⟩).1.currentResponse = Js.str "old" ∧
    (handleFormSubmit "q" "newPrompt" false false
        (fun _ _ => FetchOutcome.networkError "down")
        ⟨Js.str "old", "oldPrompt"⟩).2 =
      FormOutcome.generationFailed
        "Generation failed: Max retries reached. Failed to generate content.. Check the console for details." ∧
    "newPrompt" ≠ "oldPrompt" :=
  ⟨rfl, rfl, rfl, by simp⟩

/-- Claim C7 (amended): the summarize action only reads the
current-response state and never writes the state pair (in particular
the summary result never becomes the current response), while
`currentSystemPrompt` is written by the form-submit handler itself,
before and regardless of resolution; `currentResponse` is written only
by the resolver. -/
theorem c7_summarize_reads_only (st : AppState) (fetchAt : Payload → Nat → FetchOutcome)
    (userQueryRaw systemPromptRaw : String) (isGrounded isStructured : Bool)
    (hq : jsTrim userQueryRaw ≠ "") :
    (handleSummarize st fetchAt).1 = st ∧
    (handleFormSubmit userQueryRaw systemPromptRaw isGrounded isStructured fetchAt
        st).1.currentSystemPrompt = jsTrim systemPromptRaw := by
  constructor
  · rw [handleSummarize]
    by_cases h : truthy st.currentResponse = false
    · simp [h]
    · simp only [h, if_false]
      cases hg : generateResponse
          ("Please provide a concise summary (2-3 sentences) of the following text:\n\n" ++
            jsToString st.currentResponse) summarizeSystemPrompt false false fetchAt <;>
        simp [hg]
  · rw [handleFormSubmit]
    simp only [hq, if_false]
    cases hg : generateResponse (jsTrim userQueryRaw) (jsTrim systemPromptRaw) isGrounded
        isStructured fetchAt <;>
      simp [hg, displayResult_fst_currentSystemPrompt]

/-- Claim C7 (amended) witness: a concrete summarize run and a concrete
failing submission. -/
theorem c7_summarize_reads_only_witness :
    (handleSummarize ⟨Js.str "old", "oldPrompt"⟩
        (fun _ _ => FetchOutcome.networkError "down")).1 =
      (⟨Js.str "old", "oldPrompt"⟩ : AppState) ∧
    (handleFormSubmit "q" "newPrompt" false false
        (fun _ _ => FetchOutcome.networkError "down")
        ⟨Js.str "old", "oldPrompt"⟩).1.currentSystemPrompt = "newPrompt" :=
  c7_summarize_reads_only ⟨Js.str "old", "oldPrompt"⟩
    (fun _ _ => FetchOutcome.networkError "down") "q" "newPrompt" false false
    (by decide)

/-! ### Claim C8 -/

/-- Claim C8, as stated, is false: on the valid JSON document `\x7b\x7d`,
which lacks `final_summary`, the structured resolver does not fail with
a parse error; it renders the summary block showing the string
`undefined` and sets the current response to `undefined`. -/
theorem c8_counterexample :
    (displayResult (Js.str "\x7b\x7d") [] true initialState).2.rendered =
      Rendered.structuredSummary "undefined" ∧
    (displayResult (Js.str "\x7b\x7d") [] true initialState).1.currentResponse =
      Js.undef :=
  ⟨rfl, rfl⟩

/-- Claim C8 (amended): the structured resolver performs no shape
validation — its error path is reserved for texts that are not valid
JSON and for the `TypeError` of the `null` document; on any valid
non-null document whose `final_summary` lookup is `undefined`, it
succeeds, rendering the summary block with the text `undefined` and
setting the current response state to `undefined`. -/
theorem c8_no_shape_validation (s : String) (sources : List Source) (st : AppState)
    (j : Js) (hp : parseJson s = some j) (hj : isNullish j = false)
    (hm : getProp j "final_summary" = Js.undef) :
    (displayResult (Js.str s) sources true st).2.rendered =
      Rendered.structuredSummary "undefined" ∧
    (displayResult (Js.str s) sources true st).1.currentResponse = Js.undef := by
  simp [displayResult, jsToString, hp, getPropE_not_nullish j "final_summary" hj, hm]

/-- Claim C8 (amended) witness: the empty JSON document. -/
theorem c8_no_shape_validation_witness :
    (displayResult (Js.str "\x7b\x7d") [] true ⟨Js.str "x", "y"⟩).2.rendered =
      Rendered.structuredSummary "undefined" ∧
    (displayResult (Js.str "\x7b\x7d") [] true ⟨Js.str "x", "y"⟩).1.currentResponse =
      Js.undef :=
  c8_no_shape_validation "\x7b\x7d" [] ⟨Js.str "x", "y"⟩ (Js.obj []) rfl rfl rfl

/-! ### Claim C9 -/

/-- Claim C9: when the current response state is the empty string, the
summarize action stops at the guard alert (the user-facing
nothing-to-summarize condition) and issues no generation call; the
state is unchanged. -/
theorem c9_empty_state_no_call (st : AppState) (fetchAt : Payload → Nat → FetchOutcome)
    (h : st.currentResponse = Js.str "") :
    handleSummarize st fetchAt = (st, SummaryOutcome.nothingAlert, false) := by
  rw [handleSummarize, h]
  simp [truthy_str]

/-- Claim C9 witness: the initial page state. -/
theorem c9_empty_state_no_call_witness :
    handleSummarize initialState (fun _ _ => FetchOutcome.networkError "net") =
      (initialState, SummaryOutcome.nothingAlert, false) :=
  c9_empty_state_no_call initialState (fun _ _ => FetchOutcome.networkError "net") rfl

/-! ### Claim C10 -/

/-- Claim C10: the resolver is idempotent — running `displayResult`
again on the same `(text, sources, structured)` triple, starting from
the state the first run produced, yields the same resolved output and
the same final state as the single run. -/
theorem c10_resolve_idempotent (text : Js) (sources : List Source)
    (isStructured : Bool) (st : AppState) :
    displayResult text sources isStructured
        (displayResult text sources isStructured st).1 =
      displayResult text sources isStructured st := by
  cases isStructured with
  | false => rfl
  | true =>
    cases hp : parseJson (jsToString text) with
    | none => simp [displayResult, hp]
    | some j =>
      cases hg : getPropE j "final_summary" with
      | error e => simp [displayResult, hp, hg]
      | ok v => simp [displayResult, hp, hg]

end AiModel
